import Mathlib

/-
Verification of the url-shortener worker (src/src/index.ts, with the
custom-domain variant of the redirect handler from src/unnamed/part_004).

The worker's KV namespaces (URL_MAPPINGS, URL_ANALYTICS, API_KEYS,
OG_METADATA_CACHE, CUSTOM_DOMAINS) are modelled as association lists from
keys to the values the worker actually stores there: URL_MAPPINGS holds
JSON-serialized mapping records, modelled directly as `UrlRecord` values
(JSON.stringify / JSON.parse round-trip on the records the app writes is
the identity); URL_ANALYTICS holds decimal counter strings, modelled as
`Nat` (parseInt / toString round-trip). `put` with a fresh value shadows
the old binding; `list()` returns the stored keys. Asynchrony plays no
role in the single-request sequential flows verified here, so handlers
are state-passing functions.
-/

namespace UrlShortener

/-- `KVNamespace.get`: first binding for the key, if any. -/
def kvGet {α : Type} (m : List (String × α)) (k : String) : Option α :=
  match m with
  | [] => none
  | (k', v) :: rest => if k' = k then some v else kvGet rest k

/-- `KVNamespace.delete`: remove every binding for the key. -/
def kvDelete {α : Type} (m : List (String × α)) (k : String) : List (String × α) :=
  match m with
  | [] => []
  | (k', v) :: rest =>
    if k' = k then kvDelete rest k else (k', v) :: kvDelete rest k

/-- `KVNamespace.put`: overwrite the binding for the key. -/
def kvPut {α : Type} (m : List (String × α)) (k : String) (v : α) :
    List (String × α) :=
  (k, v) :: kvDelete m k

/-- The JSON object written to URL_MAPPINGS: the create handler stores
`{url, expirationDate, ogTitle, ogDescription, ogImage}` (expirationDate
`null` when no `expiresIn` was supplied), the update handler stores just
`{url}` — absent JSON fields are `none`. -/
structure UrlRecord where
  url : String
  expirationDate : Option Nat := none
  ogTitle : Option String := none
  ogDescription : Option String := none
  ogImage : Option String := none
deriving Repr, DecidableEq

/-- The metadata object cached in OG_METADATA_CACHE and embedded in new
mapping records. -/
structure OgMeta where
  ogTitle : String
  ogDescription : String
  ogImage : String
deriving Repr, DecidableEq

/-- The KV namespaces touched by the verified flows. -/
structure AppState where
  urlMappings : List (String × UrlRecord)
  urlAnalytics : List (String × Nat)
  apiKeys : List (String × String)
  ogMetadataCache : List (String × OgMeta)
deriving Repr, DecidableEq

def emptyState : AppState := ⟨[], [], [], []⟩

/-- Characters allowed after the leading letter of a URL scheme. -/
def isSchemeTail (c : Char) : Bool :=
  c.isAlphanum || c = '+' || c = '-' || c = '.'

def schemeRest : List Char → Bool
  | [] => false
  | c :: rest => if c = ':' then true else isSchemeTail c && schemeRest rest

/-- Model of the platform URL parser (`new URL(s)` succeeding, also the
check behind zod's `z.string().url()`): the string must open with a
scheme — an ASCII letter followed by letters, digits, `+`, `-` or `.` —
terminated by a colon. -/
def jsUrlValid (s : String) : Bool :=
  match s.data with
  | [] => false
  | c :: rest => c.isAlpha && schemeRest rest

/-- One character of the custom-code character class `[a-zA-Z0-9_-]`. -/
def isCodeChar (c : Char) : Bool :=
  c.isAlphanum || c = '_' || c = '-'

/-- zod: `z.string().regex(/^[a-zA-Z0-9_-]+$/)`. -/
def validCustomCode (s : String) : Bool :=
  s ≠ "" && s.data.all isCodeChar

/-- The validated JSON body of POST /api/urls (fields absent from the
request are `none`). -/
structure CreateBody where
  url : String
  customCode : Option String := none
  expiresIn : Option Nat := none
  ogTitle : Option String := none
  ogDescription : Option String := none
  ogImage : Option String := none
deriving Repr, DecidableEq

/-- `createUrlSchema`: url must parse, customCode must match the regex,
expiresIn must lie in [60, 31536000], ogImage must parse as a URL. -/
def createBodyValid (b : CreateBody) : Bool :=
  jsUrlValid b.url
  && (match b.customCode with
      | some cc => validCustomCode cc
      | none => true)
  && (match b.expiresIn with
      | some e => 60 ≤ e && e ≤ 31536000
      | none => true)
  && (match b.ogImage with
      | some i => jsUrlValid i
      | none => true)

/-- Outcome of `fetch(url)` plus the HTMLRewriter pass in
`fetchOpenGraphMetadata`. `failure` covers a network error, a non-ok
status, or a body-processing error, and carries the `<title>` text
accumulated before the failure (empty when nothing was read). `success`
is a fully processed ok response carrying the `content` attributes the
rewriter handlers left in the three og variables (a tag that never fired,
or fired without a content attribute, leaves the empty string — the
code's `getAttribute('content') || ''`) and the concatenated `<title>`
text. -/
inductive FetchOutcome where
  | failure (titleText : String)
  | success (ogTitle ogDescription ogImage titleText : String)
deriving Repr, DecidableEq

def placeholderImage : String :=
  "https://via.placeholder.com/1200x630?text=No+Image"

def ogMetadataKey (url : String) : String := "og_metadata:" ++ url

/-- `fetchOpenGraphMetadata(url, c)` (index.ts lines 82-151): cache-first;
on a miss, on fetch failure all three fields fall back together
(`titleText || 'Untitled'`, the fixed sentence, the placeholder image);
in either case a non-parsing ogImage is replaced by the placeholder and
the result is cached. The fetch outcome is passed in as an oracle. -/
def fetchOpenGraphMetadata (url : String) (outcome : FetchOutcome)
    (ogCache : List (String × OgMeta)) : OgMeta × List (String × OgMeta) :=
  match kvGet ogCache (ogMetadataKey url) with
  | some cached => (cached, ogCache)
  | none =>
    let raw : OgMeta :=
      match outcome with
      | .failure titleText =>
        ⟨if titleText = "" then "Untitled" else titleText,
         "No description available", placeholderImage⟩
      | .success t d i _ => ⟨t, d, i⟩
    let metadata : OgMeta :=
      ⟨raw.ogTitle, raw.ogDescription,
       if jsUrlValid raw.ogImage then raw.ogImage else placeholderImage⟩
    (metadata, kvPut ogCache (ogMetadataKey url) metadata)

/-- Responses produced along the POST /api/urls pipeline. -/
inductive ApiResponse where
  | missingAuth
  | invalidKey
  | tooManyRequests
  | validationError
  | createOk (status : Nat) (shortUrl url : String)
  | conflict
deriving Repr, DecidableEq

def ApiResponse.status : ApiResponse → Nat
  | .missingAuth => 401
  | .invalidKey => 401
  | .tooManyRequests => 429
  | .validationError => 400
  | .createOk s _ _ => s
  | .conflict => 409

/-- The dedup scan body (index.ts lines 160-174): for each listed key,
get and parse the stored value and keep the key when the stored url
equals the requested one; `find` keeps the first hit. -/
def scanForUrl (m : List (String × UrlRecord)) (keys : List String)
    (url : String) : Option String :=
  match keys with
  | [] => none
  | k :: rest =>
    match kvGet m k with
    | some r => if r.url = url then some k else scanForUrl m rest url
    | none => scanForUrl m rest url

/-- `URL_MAPPINGS.list()` over all keys, then the scan. -/
def findExistingShortCode (m : List (String × UrlRecord)) (url : String) :
    Option String :=
  scanForUrl m (m.map Prod.fst) url

/-- Handler body of POST /api/urls (index.ts lines 154-194), after
validation. `gen` stands for the `nanoid(8)` draw `generateShortCode`
would produce, `now` for `Date.now()`, `outcome` for the metadata fetch.
The og fields are fetched (and possibly cached) only when not all three
are supplied non-empty; then the dedup scan runs; then the custom-code
conflict check; then the record is written. -/
def handlerFetched (b : CreateBody) (outcome : FetchOutcome)
    (st : AppState) : OgMeta × List (String × OgMeta) :=
  let provided : Bool :=
    match b.ogTitle, b.ogDescription, b.ogImage with
    | some t, some d, some i => t ≠ "" && d ≠ "" && i ≠ ""
    | _, _, _ => false
  if provided then
    (⟨b.ogTitle.getD "", b.ogDescription.getD "", b.ogImage.getD ""⟩,
     st.ogMetadataCache)
  else fetchOpenGraphMetadata b.url outcome st.ogMetadataCache

def postApiUrls (b : CreateBody) (outcome : FetchOutcome) (gen : String)
    (now : Nat) (host : String) (st : AppState) : ApiResponse × AppState :=
  let fetched : OgMeta × List (String × OgMeta) := handlerFetched b outcome st
  match findExistingShortCode st.urlMappings b.url with
  | some existingCode =>
    (.createOk 200 ("https://" ++ host ++ "/" ++ existingCode) b.url,
     ⟨st.urlMappings, st.urlAnalytics, st.apiKeys, fetched.2⟩)
  | none =>
    let ccTaken : Bool :=
      match b.customCode with
      | some cc => cc ≠ "" && (kvGet st.urlMappings cc).isSome
      | none => false
    if ccTaken then
      (.conflict, ⟨st.urlMappings, st.urlAnalytics, st.apiKeys, fetched.2⟩)
    else
      let shortCode : String :=
        match b.customCode with
        | some cc => if cc = "" then gen else cc
        | none => gen
      let expirationDate : Option Nat :=
        match b.expiresIn with
        | some e => if e = 0 then none else some (now + e * 1000)
        | none => none
      let record : UrlRecord :=
        ⟨b.url, expirationDate, some fetched.1.ogTitle,
         some fetched.1.ogDescription, some fetched.1.ogImage⟩
      (.createOk 201 ("https://" ++ host ++ "/" ++ shortCode) b.url,
       ⟨kvPut st.urlMappings shortCode record, st.urlAnalytics,
        st.apiKeys, fetched.2⟩)

/-- Handler body of PUT /api/urls/:shortCode (index.ts lines 197-202):
unconditionally writes `{url}` under the code and answers 200. -/
def putApiUrls (shortCode url : String) (st : AppState) : Nat × AppState :=
  (200,
   ⟨kvPut st.urlMappings shortCode ⟨url, none, none, none, none⟩,
    st.urlAnalytics, st.apiKeys, st.ogMetadataCache⟩)

def charsLead : List Char → List Char → Bool
  | [], _ => true
  | _ :: _, [] => false
  | a :: as, b :: bs => a = b && charsLead as bs

def charsIncl (pat : List Char) : List Char → Bool
  | [] => charsLead pat []
  | c :: rest => charsLead pat (c :: rest) || charsIncl pat rest

/-- JS `String.prototype.includes`. -/
def strIncludes (s sub : String) : Bool := charsIncl sub.data s.data

/-- The bot branch test (index.ts line 259). -/
def isBotAgent (ua : String) : Bool :=
  strIncludes ua "facebookexternalhit" || strIncludes ua "twitterbot"

/-- `expirationDate && Date.now() > expirationDate` — a stored 0 is falsy. -/
def recExpired (r : UrlRecord) (now : Nat) : Bool :=
  match r.expirationDate with
  | some e => decide (e ≠ 0) && decide (e < now)
  | none => false

/-- Responses of GET /:shortCode. -/
inductive RedirectOutcome where
  | ogRedirect (shortCode : String)
  | redirect (location : String)
  | notFound
deriving Repr, DecidableEq

/-- Handler body of GET /:shortCode (index.ts lines 256-282): bot branch,
lookup, lazy expiration delete, click-count increment, redirect. -/
def getShortCode (shortCode ua : String) (now : Nat) (st : AppState) :
    RedirectOutcome × AppState :=
  if isBotAgent ua then (.ogRedirect shortCode, st)
  else
    match kvGet st.urlMappings shortCode with
    | none => (.notFound, st)
    | some r =>
      if recExpired r now then
        (.notFound,
         ⟨kvDelete st.urlMappings shortCode, st.urlAnalytics,
          st.apiKeys, st.ogMetadataCache⟩)
      else
        (.redirect r.url,
         ⟨st.urlMappings,
          kvPut st.urlAnalytics shortCode
            ((kvGet st.urlAnalytics shortCode).getD 0 + 1),
          st.apiKeys, st.ogMetadataCache⟩)

/-- Handler body of GET /:shortCode in the custom-domain variant
(src/unnamed/part_004 lines 270-303): identical except that an unknown
code falls back to a CUSTOM_DOMAINS lookup keyed by the (truthy) host
header before answering Not Found. -/
def getShortCodeWithDomains (shortCode ua : String) (host : Option String)
    (now : Nat) (domains : List (String × String)) (st : AppState) :
    RedirectOutcome × AppState :=
  if isBotAgent ua then (.ogRedirect shortCode, st)
  else
    match kvGet st.urlMappings shortCode with
    | none =>
      match host with
      | some h =>
        if h = "" then (.notFound, st)
        else
          match kvGet domains h with
          | some target => (.redirect target, st)
          | none => (.notFound, st)
      | none => (.notFound, st)
    | some r =>
      if recExpired r now then
        (.notFound,
         ⟨kvDelete st.urlMappings shortCode, st.urlAnalytics,
          st.apiKeys, st.ogMetadataCache⟩)
      else
        (.redirect r.url,
         ⟨st.urlMappings,
          kvPut st.urlAnalytics shortCode
            ((kvGet st.urlAnalytics shortCode).getD 0 + 1),
          st.apiKeys, st.ogMetadataCache⟩)

def rateLimitCeiling : Nat := 100

def rateLimitKey (ip : String) : String := "rate_limit:" ++ ip

/-- The rateLimiter middleware (index.ts lines 44-58) for one request
from `ip`: read the counter (absent means 0), reject at or above the
ceiling without writing, otherwise rewrite count+1 (with the 60s window
TTL, not tracked here: within a window the key persists, and a fresh
window is an absent key). `true` means the request proceeds. -/
def rateLimiter (ip : String) (st : AppState) : Bool × AppState :=
  let count : Nat := (kvGet st.urlAnalytics (rateLimitKey ip)).getD 0
  if rateLimitCeiling ≤ count then (false, st)
  else
    (true,
     ⟨st.urlMappings, kvPut st.urlAnalytics (rateLimitKey ip) (count + 1),
      st.apiKeys, st.ogMetadataCache⟩)

/-- State after `n` requests from `ip` have passed through the rate
limiter middleware. -/
def rateLimiterCalls (ip : String) : Nat → AppState → AppState
  | 0, st => st
  | n + 1, st => (rateLimiter ip (rateLimiterCalls ip n st)).2

/-- The middleware pipeline in front of the POST /api/urls handler, in
registration order: bearer-token auth (a missing or empty token, or one
absent from API_KEYS, answers 401), then the rate limiter, then
zValidator against `createUrlSchema`, then the handler body. `authToken`
is the Authorization header with the `Bearer ` marker already stripped. -/
def apiCreatePipeline (authToken : Option String) (ip : String)
    (b : CreateBody) (outcome : FetchOutcome) (gen : String) (now : Nat)
    (host : String) (st : AppState) : ApiResponse × AppState :=
  match authToken with
  | none => (.missingAuth, st)
  | some token =>
    if token = "" then (.missingAuth, st)
    else if (kvGet st.apiKeys token).isNone then (.invalidKey, st)
    else
      let rl := rateLimiter ip st
      if rl.1 then
        if createBodyValid b then postApiUrls b outcome gen now host rl.2
        else (.validationError, rl.2)
      else (.tooManyRequests, rl.2)

/- ### Helper lemmas about the KV model and the dedup scan -/

theorem kvGet_put_same {α : Type} (m : List (String × α)) (k : String) (v : α) :
    kvGet (kvPut m k v) k = some v := by
  simp [kvPut, kvGet]

theorem kvGet_delete_same {α : Type} (m : List (String × α)) (k : String) :
    kvGet (kvDelete m k) k = none := by
  induction m with
  | nil => simp [kvDelete, kvGet]
  | cons p rest ih =>
    obtain ⟨k', v⟩ := p
    by_cases h : k' = k
    · simpa [kvDelete, h] using ih
    · simpa [kvDelete, kvGet, h] using ih

theorem kvGet_mem {α : Type} {m : List (String × α)} {k : String} {v : α}
    (h : kvGet m k = some v) : (k, v) ∈ m := by
  induction m with
  | nil => simp [kvGet] at h
  | cons p rest ih =>
    obtain ⟨k', v'⟩ := p
    by_cases hk : k' = k
    · subst hk
      simp [kvGet] at h
      subst h
      exact List.mem_cons_self _ _
    · simp [kvGet, hk] at h
      exact List.mem_cons_of_mem _ (ih h)

theorem kvGet_mem_keys {α : Type} {m : List (String × α)} {k : String} {v : α}
    (h : kvGet m k = some v) : k ∈ m.map Prod.fst :=
  List.mem_map.mpr ⟨(k, v), kvGet_mem h, rfl⟩

theorem scanForUrl_none {m : List (String × UrlRecord)} {u : String}
    (h : ∀ p ∈ m, p.2.url ≠ u) :
    ∀ keys, scanForUrl m keys u = none := by
  intro keys
  induction keys with
  | nil => simp [scanForUrl]
  | cons k rest ih =>
    cases hk : kvGet m k with
    | none => simpa [scanForUrl, hk] using ih
    | some r =>
      have hne : r.url ≠ u := h (k, r) (kvGet_mem hk)
      simpa [scanForUrl, hk, hne] using ih

theorem scanForUrl_sound {m : List (String × UrlRecord)} {u c : String} :
    ∀ {keys}, scanForUrl m keys u = some c →
      ∃ r, kvGet m c = some r ∧ r.url = u := by
  intro keys
  induction keys with
  | nil => intro h; simp [scanForUrl] at h
  | cons k rest ih =>
    intro h
    cases hk : kvGet m k with
    | none =>
      rw [scanForUrl, hk] at h
      exact ih h
    | some r =>
      rw [scanForUrl, hk] at h
      by_cases hr : r.url = u
      · simp only [hr, if_true] at h
        obtain rfl : k = c := by injection h
        exact ⟨r, hk, hr⟩
      · simp only [hr, if_false] at h
        exact ih h

theorem scanForUrl_found {m : List (String × UrlRecord)} {u k : String}
    {r : UrlRecord} (hget : kvGet m k = some r) (hu : r.url = u) :
    ∀ {keys}, k ∈ keys → (scanForUrl m keys u).isSome := by
  intro keys
  induction keys with
  | nil => intro h; simp at h
  | cons k' rest ih =>
    intro hmem
    rcases List.mem_cons.mp hmem with h | h
    · subst h
      simp [scanForUrl, hget, hu]
    · rw [scanForUrl]
      cases hk' : kvGet m k' with
      | none => exact ih h
      | some r' =>
        by_cases hr' : r'.url = u
        · simp [hr']
        · simpa [hr'] using ih h

theorem findExistingShortCode_none {m : List (String × UrlRecord)} {u : String}
    (h : ∀ p ∈ m, p.2.url ≠ u) : findExistingShortCode m u = none :=
  scanForUrl_none h _

theorem findExistingShortCode_sound {m : List (String × UrlRecord)}
    {u c : String} (h : findExistingShortCode m u = some c) :
    ∃ r, kvGet m c = some r ∧ r.url = u :=
  scanForUrl_sound h

theorem findExistingShortCode_isSome {m : List (String × UrlRecord)}
    {u k : String} {r : UrlRecord} (hget : kvGet m k = some r)
    (hu : r.url = u) : (findExistingShortCode m u).isSome :=
  scanForUrl_found hget hu (kvGet_mem_keys hget)

theorem findExistingShortCode_put_self {m : List (String × UrlRecord)}
    {u k : String} {r : UrlRecord} (hu : r.url = u) :
    findExistingShortCode (kvPut m k r) u = some k := by
  simp [findExistingShortCode, kvPut, scanForUrl, kvGet, hu]

/- ### Characterizations of the create handler branches -/

theorem postApiUrls_dedup_fst {b : CreateBody} {st : AppState} {c : String}
    (h : findExistingShortCode st.urlMappings b.url = some c)
    (o : FetchOutcome) (g : String) (n : Nat) (host : String) :
    (postApiUrls b o g n host st).1 =
      .createOk 200 ("https://" ++ host ++ "/" ++ c) b.url := by
  simp [postApiUrls, h]

theorem postApiUrls_dedup_mappings {b : CreateBody} {st : AppState}
    {c : String} (h : findExistingShortCode st.urlMappings b.url = some c)
    (o : FetchOutcome) (g : String) (n : Nat) (host : String) :
    (postApiUrls b o g n host st).2.urlMappings = st.urlMappings := by
  simp [postApiUrls, h]

theorem postApiUrls_dedup_analytics {b : CreateBody} {st : AppState}
    {c : String} (h : findExistingShortCode st.urlMappings b.url = some c)
    (o : FetchOutcome) (g : String) (n : Nat) (host : String) :
    (postApiUrls b o g n host st).2.urlAnalytics = st.urlAnalytics := by
  simp [postApiUrls, h]

theorem postApiUrls_conflict_fst {b : CreateBody} {st : AppState}
    {cc : String} (hnone : findExistingShortCode st.urlMappings b.url = none)
    (hcc : b.customCode = some cc) (hne : cc ≠ "")
    (htaken : (kvGet st.urlMappings cc).isSome)
    (o : FetchOutcome) (g : String) (n : Nat) (host : String) :
    (postApiUrls b o g n host st).1 = .conflict := by
  simp [postApiUrls, hnone, hcc, hne, htaken]

theorem postApiUrls_conflict_mappings {b : CreateBody} {st : AppState}
    {cc : String} (hnone : findExistingShortCode st.urlMappings b.url = none)
    (hcc : b.customCode = some cc) (hne : cc ≠ "")
    (htaken : (kvGet st.urlMappings cc).isSome)
    (o : FetchOutcome) (g : String) (n : Nat) (host : String) :
    (postApiUrls b o g n host st).2.urlMappings = st.urlMappings := by
  simp [postApiUrls, hnone, hcc, hne, htaken]

theorem postApiUrls_conflict_analytics {b : CreateBody} {st : AppState}
    {cc : String} (hnone : findExistingShortCode st.urlMappings b.url = none)
    (hcc : b.customCode = some cc) (hne : cc ≠ "")
    (htaken : (kvGet st.urlMappings cc).isSome)
    (o : FetchOutcome) (g : String) (n : Nat) (host : String) :
    (postApiUrls b o g n host st).2.urlAnalytics = st.urlAnalytics := by
  simp [postApiUrls, hnone, hcc, hne, htaken]

/-- The og metadata embedded in a freshly written record, as computed in
the handler before the dedup scan. -/
def handlerOgMeta (b : CreateBody) (outcome : FetchOutcome)
    (st : AppState) : OgMeta :=
  (handlerFetched b outcome st).1

/-- The record written by the fresh-creation branch. -/
def freshRecord (b : CreateBody) (outcome : FetchOutcome) (n : Nat)
    (st : AppState) : UrlRecord :=
  ⟨b.url,
   (match b.expiresIn with
    | some e => if e = 0 then none else some (n + e * 1000)
    | none => none),
   some (handlerOgMeta b outcome st).ogTitle,
   some (handlerOgMeta b outcome st).ogDescription,
   some (handlerOgMeta b outcome st).ogImage⟩

theorem postApiUrls_fresh_fst {b : CreateBody} {st : AppState}
    (hnone : findExistingShortCode st.urlMappings b.url = none)
    (hcc : b.customCode = none)
    (o : FetchOutcome) (g : String) (n : Nat) (host : String) :
    (postApiUrls b o g n host st).1 =
      .createOk 201 ("https://" ++ host ++ "/" ++ g) b.url := by
  simp [postApiUrls, hnone, hcc]

theorem postApiUrls_fresh_mappings {b : CreateBody} {st : AppState}
    (hnone : findExistingShortCode st.urlMappings b.url = none)
    (hcc : b.customCode = none)
    (o : FetchOutcome) (g : String) (n : Nat) (host : String) :
    (postApiUrls b o g n host st).2.urlMappings =
      kvPut st.urlMappings g (freshRecord b o n st) := by
  simp [postApiUrls, hnone, hcc, freshRecord, handlerOgMeta]

theorem freshRecord_url (b : CreateBody) (o : FetchOutcome) (n : Nat)
    (st : AppState) : (freshRecord b o n st).url = b.url := rfl

theorem freshRecord_expiration_none {b : CreateBody}
    (h : b.expiresIn = none) (o : FetchOutcome) (n : Nat) (st : AppState) :
    (freshRecord b o n st).expirationDate = none := by
  simp [freshRecord, h]

/- ### Rate limiter and pipeline lemmas -/

theorem rateLimiter_allowed {ip : String} {st : AppState}
    (h : (kvGet st.urlAnalytics (rateLimitKey ip)).getD 0 < rateLimitCeiling) :
    (rateLimiter ip st).1 = true := by
  simp [rateLimiter, Nat.not_le_of_lt h]

theorem rateLimiter_rejected {ip : String} {st : AppState}
    (h : rateLimitCeiling ≤ (kvGet st.urlAnalytics (rateLimitKey ip)).getD 0) :
    rateLimiter ip st = (false, st) := by
  simp [rateLimiter, h]

theorem rateLimiter_urlMappings (ip : String) (st : AppState) :
    (rateLimiter ip st).2.urlMappings = st.urlMappings := by
  by_cases h :
      rateLimitCeiling ≤ (kvGet st.urlAnalytics (rateLimitKey ip)).getD 0 <;>
    simp [rateLimiter, h]

theorem rateLimiter_apiKeys (ip : String) (st : AppState) :
    (rateLimiter ip st).2.apiKeys = st.apiKeys := by
  by_cases h :
      rateLimitCeiling ≤ (kvGet st.urlAnalytics (rateLimitKey ip)).getD 0 <;>
    simp [rateLimiter, h]

theorem rateLimiter_ogCache (ip : String) (st : AppState) :
    (rateLimiter ip st).2.ogMetadataCache = st.ogMetadataCache := by
  by_cases h :
      rateLimitCeiling ≤ (kvGet st.urlAnalytics (rateLimitKey ip)).getD 0 <;>
    simp [rateLimiter, h]

theorem rateLimiterCalls_apiKeys (ip : String) (st : AppState) :
    ∀ n, (rateLimiterCalls ip n st).apiKeys = st.apiKeys := by
  intro n
  induction n with
  | zero => rfl
  | succ n ih => rw [rateLimiterCalls, rateLimiter_apiKeys]; exact ih

theorem rateLimiterCalls_count {ip : String} {st : AppState}
    (h : kvGet st.urlAnalytics (rateLimitKey ip) = none) :
    ∀ n, n ≤ rateLimitCeiling →
      (kvGet (rateLimiterCalls ip n st).urlAnalytics
        (rateLimitKey ip)).getD 0 = n := by
  intro n
  induction n with
  | zero => intro _; simp [rateLimiterCalls, h]
  | succ n ih =>
    intro hn
    have hlt : n < rateLimitCeiling := Nat.lt_of_succ_le hn
    have hcount := ih (Nat.le_of_lt hlt)
    have hnot : ¬ rateLimitCeiling ≤
        (kvGet (rateLimiterCalls ip n st).urlAnalytics
          (rateLimitKey ip)).getD 0 := by
      rw [hcount]; exact Nat.not_le_of_lt hlt
    rw [rateLimiterCalls]
    simp only [rateLimiter, hcount]
    rw [if_neg (Nat.not_le_of_lt hlt)]
    simp [kvGet_put_same]

theorem apiCreatePipeline_rateLimited {tok key ip : String} {st : AppState}
    (htok : tok ≠ "") (hkey : kvGet st.apiKeys tok = some key)
    (hrl : (rateLimiter ip st).1 = false)
    (b : CreateBody) (o : FetchOutcome) (g : String) (n : Nat)
    (host : String) :
    apiCreatePipeline (some tok) ip b o g n host st =
      (.tooManyRequests, (rateLimiter ip st).2) := by
  simp [apiCreatePipeline, htok, hkey, hrl]

theorem apiCreatePipeline_validation {tok key ip : String} {st : AppState}
    {b : CreateBody} (htok : tok ≠ "")
    (hkey : kvGet st.apiKeys tok = some key)
    (hrl : (rateLimiter ip st).1 = true)
    (hbad : createBodyValid b = false)
    (o : FetchOutcome) (g : String) (n : Nat) (host : String) :
    apiCreatePipeline (some tok) ip b o g n host st =
      (.validationError, (rateLimiter ip st).2) := by
  simp [apiCreatePipeline, htok, hkey, hrl, hbad]

/- ### Claim theorems -/

/-- C1 (counterexample): the claim fails as stated. In a store holding an
expired record for `u` (code "c", expired at 5, resolved at 10), `create(u)`
with no custom code dedups onto the expired record and returns its code
with 200, and the immediate resolution of that code answers Not Found
rather than redirecting to `u`. -/
theorem C1_counterexample :
    (postApiUrls ⟨"https://example.com/a", none, none, none, none, none⟩
        (.failure "") "g1g1g1g1" 10 "sho.rt"
        ⟨[("c", ⟨"https://example.com/a", some 5, none, none, none⟩)],
         [], [], []⟩).1 =
      .createOk 200 "https://sho.rt/c" "https://example.com/a" ∧
    (getShortCode "c" "Mozilla/5.0" 10
        (postApiUrls ⟨"https://example.com/a", none, none, none, none, none⟩
          (.failure "") "g1g1g1g1" 10 "sho.rt"
          ⟨[("c", ⟨"https://example.com/a", some 5, none, none, none⟩)],
           [], [], []⟩).2).1 = .notFound := by
  decide

/-- C1 (amended): for every valid URL `u`, `create(u)` with no custom code
and no expiry, immediately followed by a non-bot resolution of the
returned code, redirects to a targetUrl equal to `u` string-for-string —
provided every stored record mapping to `u` is unexpired at resolution
time (in particular from any state with no mapping for `u` at all). -/
theorem C1_roundtrip (u ua host g : String) (b : CreateBody)
    (o : FetchOutcome) (n1 n2 : Nat) (st : AppState)
    (hbu : b.url = u) (hbc : b.customCode = none) (hbe : b.expiresIn = none)
    (hbot : isBotAgent ua = false)
    (hlive : ∀ p ∈ st.urlMappings, p.2.url = u → recExpired p.2 n2 = false) :
    ∃ code status,
      (postApiUrls b o g n1 host st).1 =
        .createOk status ("https://" ++ host ++ "/" ++ code) u ∧
      (getShortCode code ua n2 (postApiUrls b o g n1 host st).2).1 =
        .redirect u := by
  cases hfind : findExistingShortCode st.urlMappings b.url with
  | some c =>
    obtain ⟨r, hrget, hru⟩ := findExistingShortCode_sound hfind
    have hru' : r.url = u := by rw [hru, hbu]
    have hnx : recExpired r n2 = false := hlive (c, r) (kvGet_mem hrget) hru'
    have hmap := postApiUrls_dedup_mappings hfind o g n1 host
    refine ⟨c, 200,
      by rw [postApiUrls_dedup_fst hfind o g n1 host, hbu], ?_⟩
    simp [getShortCode, hbot, hmap, hrget, hnx, hru']
  | none =>
    have hmap := postApiUrls_fresh_mappings hfind hbc o g n1 host
    refine ⟨g, 201,
      by rw [postApiUrls_fresh_fst hfind hbc o g n1 host, hbu], ?_⟩
    have hget2 : kvGet (postApiUrls b o g n1 host st).2.urlMappings g =
        some (freshRecord b o n1 st) := by
      rw [hmap]; exact kvGet_put_same _ _ _
    have hnx : recExpired (freshRecord b o n1 st) n2 = false := by
      simp [recExpired, freshRecord_expiration_none hbe o n1 st]
    have hu : (freshRecord b o n1 st).url = u := by
      rw [freshRecord_url, hbu]
    simp [getShortCode, hbot, hget2, hnx, hu]

/-- C1 witness: a fresh creation against the empty store followed by an
immediate resolution redirects to the created URL. -/
theorem C1_witness :
    ∃ code status,
      (postApiUrls ⟨"https://example.com/a", none, none, none, none, none⟩
          (.failure "") "abc12345" 0 "sho.rt" emptyState).1 =
        .createOk status ("https://" ++ "sho.rt" ++ "/" ++ code)
          "https://example.com/a" ∧
      (getShortCode code "Mozilla/5.0" 0
          (postApiUrls
            ⟨"https://example.com/a", none, none, none, none, none⟩
            (.failure "") "abc12345" 0 "sho.rt" emptyState).2).1 =
        .redirect "https://example.com/a" :=
  C1_roundtrip "https://example.com/a" "Mozilla/5.0" "sho.rt" "abc12345"
    ⟨"https://example.com/a", none, none, none, none, none⟩ (.failure "")
    0 0 emptyState rfl rfl rfl (by decide) (by decide)

/-- C2: from a state with no mapping for `u`, creating `u` twice with no
custom code answers 201 with the generated code, then 200 with the same
code, the second call writing no mapping record. -/
theorem C2_dedup_idempotent (u host : String) (b1 b2 : CreateBody)
    (o1 o2 : FetchOutcome) (g1 g2 : String) (n1 n2 : Nat) (st : AppState)
    (hb1u : b1.url = u) (hb2u : b2.url = u)
    (hb1c : b1.customCode = none) (hb2c : b2.customCode = none)
    (hfresh : ∀ p ∈ st.urlMappings, p.2.url ≠ u) :
    (postApiUrls b1 o1 g1 n1 host st).1 =
      .createOk 201 ("https://" ++ host ++ "/" ++ g1) u ∧
    (postApiUrls b2 o2 g2 n2 host (postApiUrls b1 o1 g1 n1 host st).2).1 =
      .createOk 200 ("https://" ++ host ++ "/" ++ g1) u ∧
    (postApiUrls b2 o2 g2 n2 host
        (postApiUrls b1 o1 g1 n1 host st).2).2.urlMappings =
      (postApiUrls b1 o1 g1 n1 host st).2.urlMappings := by
  have hnone : findExistingShortCode st.urlMappings b1.url = none := by
    rw [hb1u]; exact findExistingShortCode_none hfresh
  have h1map := postApiUrls_fresh_mappings hnone hb1c o1 g1 n1 host
  have hfind2 : findExistingShortCode
      (postApiUrls b1 o1 g1 n1 host st).2.urlMappings b2.url = some g1 := by
    rw [h1map, hb2u]
    exact findExistingShortCode_put_self (by rw [freshRecord_url, hb1u])
  refine ⟨?_, ?_, postApiUrls_dedup_mappings hfind2 o2 g2 n2 host⟩
  · rw [postApiUrls_fresh_fst hnone hb1c o1 g1 n1 host, hb1u]
  · rw [postApiUrls_dedup_fst hfind2 o2 g2 n2 host, hb2u]

/-- C2 witness: creating the same URL twice against the empty store gives
201 then 200 with the same short URL and no second write. -/
theorem C2_witness :
    (postApiUrls ⟨"https://example.com/a", none, none, none, none, none⟩
        (.failure "") "g1aaaaaa" 0 "sho.rt" emptyState).1 =
      .createOk 201 ("https://" ++ "sho.rt" ++ "/" ++ "g1aaaaaa")
        "https://example.com/a" ∧
    (postApiUrls ⟨"https://example.com/a", none, none, none, none, none⟩
        (.failure "") "g2aaaaaa" 0 "sho.rt"
        (postApiUrls ⟨"https://example.com/a", none, none, none, none, none⟩
          (.failure "") "g1aaaaaa" 0 "sho.rt" emptyState).2).1 =
      .createOk 200 ("https://" ++ "sho.rt" ++ "/" ++ "g1aaaaaa")
        "https://example.com/a" ∧
    (postApiUrls ⟨"https://example.com/a", none, none, none, none, none⟩
        (.failure "") "g2aaaaaa" 0 "sho.rt"
        (postApiUrls ⟨"https://example.com/a", none, none, none, none, none⟩
          (.failure "") "g1aaaaaa" 0 "sho.rt" emptyState).2).2.urlMappings =
      (postApiUrls ⟨"https://example.com/a", none, none, none, none, none⟩
        (.failure "") "g1aaaaaa" 0 "sho.rt" emptyState).2.urlMappings :=
  C2_dedup_idempotent "https://example.com/a" "sho.rt"
    ⟨"https://example.com/a", none, none, none, none, none⟩
    ⟨"https://example.com/a", none, none, none, none, none⟩
    (.failure "") (.failure "") "g1aaaaaa" "g2aaaaaa" 0 0 emptyState
    rfl rfl rfl rfl (by decide)

/-- C3: a stored record with expiration instant `e > 0`: any non-bot
resolution at or before `e` redirects to its target; any resolution
strictly after `e` answers Not Found and deletes the record, and every
subsequent resolution of the code also answers Not Found. -/
theorem C3_lazy_expiration (code ua : String) (r : UrlRecord) (e : Nat)
    (st : AppState)
    (hget : kvGet st.urlMappings code = some r)
    (hexp : r.expirationDate = some e) (hpos : 0 < e)
    (hbot : isBotAgent ua = false) :
    (∀ n1, n1 ≤ e → (getShortCode code ua n1 st).1 = .redirect r.url) ∧
    (∀ n2, e < n2 →
      (getShortCode code ua n2 st).1 = .notFound ∧
      kvGet (getShortCode code ua n2 st).2.urlMappings code = none ∧
      ∀ n3, (getShortCode code ua n3 (getShortCode code ua n2 st).2).1 =
        .notFound) := by
  constructor
  · intro n1 h1
    have hnx : recExpired r n1 = false := by
      have : ¬ e < n1 := Nat.not_lt.mpr h1
      simp [recExpired, hexp, this]
    simp [getShortCode, hbot, hget, hnx]
  · intro n2 h2
    have hx : recExpired r n2 = true := by
      simp [recExpired, hexp, h2, Nat.pos_iff_ne_zero.mp hpos]
    have hdel : (getShortCode code ua n2 st).2.urlMappings =
        kvDelete st.urlMappings code := by
      simp [getShortCode, hbot, hget, hx]
    have hgone : kvGet (getShortCode code ua n2 st).2.urlMappings code =
        none := by
      rw [hdel]; exact kvGet_delete_same _ _
    refine ⟨by simp [getShortCode, hbot, hget, hx], hgone, ?_⟩
    intro n3
    generalize hst2 : (getShortCode code ua n2 st).2 = st2 at hgone
    simp [getShortCode, hbot, hgone]

/-- C3 witness: a record expiring at 100 resolves at 99 and is gone at
101 and afterwards. -/
theorem C3_witness :
    (getShortCode "c" "Mozilla/5.0" 99
        ⟨[("c", ⟨"https://e.example", some 100, none, none, none⟩)],
         [], [], []⟩).1 = .redirect "https://e.example" ∧
    (getShortCode "c" "Mozilla/5.0" 101
        ⟨[("c", ⟨"https://e.example", some 100, none, none, none⟩)],
         [], [], []⟩).1 = .notFound ∧
    (getShortCode "c" "Mozilla/5.0" 102
        (getShortCode "c" "Mozilla/5.0" 101
          ⟨[("c", ⟨"https://e.example", some 100, none, none, none⟩)],
           [], [], []⟩).2).1 = .notFound := by
  have h := C3_lazy_expiration "c" "Mozilla/5.0"
    ⟨"https://e.example", some 100, none, none, none⟩ 100
    ⟨[("c", ⟨"https://e.example", some 100, none, none, none⟩)], [], [], []⟩
    (by decide) rfl (by decide) (by decide)
  exact ⟨h.1 99 (by decide), (h.2 101 (by decide)).1,
    (h.2 101 (by decide)).2.2 102⟩

/-- C4: from a fresh window (no counter stored) each of the first 100
requests from one client is allowed, the 101st is rejected, the rejection
leaves the state — in particular the stored count — unchanged, and through
the API pipeline the rejection answers 429. -/
theorem C4_rate_limit (ip : String) (st : AppState)
    (hfresh : kvGet st.urlAnalytics (rateLimitKey ip) = none) :
    (∀ n, n < rateLimitCeiling →
      (rateLimiter ip (rateLimiterCalls ip n st)).1 = true) ∧
    (rateLimiter ip (rateLimiterCalls ip rateLimitCeiling st)).1 = false ∧
    (rateLimiter ip (rateLimiterCalls ip rateLimitCeiling st)).2 =
      rateLimiterCalls ip rateLimitCeiling st ∧
    (∀ tok key b o g n host, tok ≠ "" →
      kvGet st.apiKeys tok = some key →
      apiCreatePipeline (some tok) ip b o g n host
          (rateLimiterCalls ip rateLimitCeiling st) =
        (.tooManyRequests, rateLimiterCalls ip rateLimitCeiling st) ∧
      ApiResponse.status .tooManyRequests = 429) := by
  have hc100 := rateLimiterCalls_count hfresh rateLimitCeiling (le_refl _)
  have hrej : rateLimiter ip (rateLimiterCalls ip rateLimitCeiling st) =
      (false, rateLimiterCalls ip rateLimitCeiling st) :=
    rateLimiter_rejected (by rw [hc100])
  refine ⟨?_, by rw [hrej], by rw [hrej], ?_⟩
  · intro n hn
    exact rateLimiter_allowed
      (by rw [rateLimiterCalls_count hfresh n (Nat.le_of_lt hn)]; exact hn)
  · intro tok key b o g n host htok hkey
    have hkey' : kvGet (rateLimiterCalls ip rateLimitCeiling st).apiKeys
        tok = some key := by
      rw [rateLimiterCalls_apiKeys]; exact hkey
    refine ⟨?_, rfl⟩
    rw [apiCreatePipeline_rateLimited htok hkey' (by rw [hrej]) b o g n host]
    rw [hrej]

/-- C4 witness: concrete client against the empty store — the 100th
request is allowed, the 101st is rejected without a state change. -/
theorem C4_witness :
    (rateLimiter "1.2.3.4" (rateLimiterCalls "1.2.3.4" 99 emptyState)).1 =
      true ∧
    (rateLimiter "1.2.3.4" (rateLimiterCalls "1.2.3.4" 100 emptyState)).1 =
      false ∧
    (rateLimiter "1.2.3.4" (rateLimiterCalls "1.2.3.4" 100 emptyState)).2 =
      rateLimiterCalls "1.2.3.4" 100 emptyState := by
  have h := C4_rate_limit "1.2.3.4" emptyState (by decide)
  exact ⟨h.1 99 (by decide), h.2.1, h.2.2.1⟩

/-- C5: with `u` stored under custom code `cc` and `v` mapped nowhere,
creating `v` with custom code `cc` answers Conflict (409), writes no
mapping, and a later non-bot resolution of `cc` still redirects to `u`. -/
theorem C5_conflict_preserves (u v host cc ua g : String) (r : UrlRecord)
    (b : CreateBody) (o : FetchOutcome) (n1 n2 : Nat) (st : AppState)
    (huv : u ≠ v) (hcc : cc ≠ "")
    (habc : kvGet st.urlMappings cc = some r) (hru : r.url = u)
    (hv : ∀ p ∈ st.urlMappings, p.2.url ≠ v)
    (hbv : b.url = v) (hbcc : b.customCode = some cc)
    (hbot : isBotAgent ua = false)
    (hlive : recExpired r n2 = false) :
    (postApiUrls b o g n1 host st).1 = .conflict ∧
    ApiResponse.status .conflict = 409 ∧
    (postApiUrls b o g n1 host st).2.urlMappings = st.urlMappings ∧
    (getShortCode cc ua n2 (postApiUrls b o g n1 host st).2).1 =
      .redirect u := by
  have hnone : findExistingShortCode st.urlMappings b.url = none := by
    rw [hbv]; exact findExistingShortCode_none hv
  have htaken : (kvGet st.urlMappings cc).isSome := by rw [habc]; rfl
  have hmap := postApiUrls_conflict_mappings hnone hbcc hcc htaken o g n1 host
  refine ⟨postApiUrls_conflict_fst hnone hbcc hcc htaken o g n1 host,
    rfl, hmap, ?_⟩
  simp [getShortCode, hbot, hmap, habc, hlive, hru]

/-- C5 witness: concrete conflict on custom code "abc". -/
theorem C5_witness :
    (postApiUrls ⟨"https://v.example", some "abc", none, none, none, none⟩
        (.failure "") "gggggggg" 0 "sho.rt"
        ⟨[("abc", ⟨"https://u.example", none, none, none, none⟩)],
         [], [], []⟩).1 = .conflict ∧
    ApiResponse.status .conflict = 409 ∧
    (postApiUrls ⟨"https://v.example", some "abc", none, none, none, none⟩
        (.failure "") "gggggggg" 0 "sho.rt"
        ⟨[("abc", ⟨"https://u.example", none, none, none, none⟩)],
         [], [], []⟩).2.urlMappings =
      AppState.urlMappings
        ⟨[("abc", ⟨"https://u.example", none, none, none, none⟩)],
         [], [], []⟩ ∧
    (getShortCode "abc" "Mozilla/5.0" 0
        (postApiUrls
          ⟨"https://v.example", some "abc", none, none, none, none⟩
          (.failure "") "gggggggg" 0 "sho.rt"
          ⟨[("abc", ⟨"https://u.example", none, none, none, none⟩)],
           [], [], []⟩).2).1 = .redirect "https://u.example" :=
  C5_conflict_preserves "https://u.example" "https://v.example" "sho.rt"
    "abc" "Mozilla/5.0" "gggggggg"
    ⟨"https://u.example", none, none, none, none⟩
    ⟨"https://v.example", some "abc", none, none, none, none⟩
    (.failure "") 0 0
    ⟨[("abc", ⟨"https://u.example", none, none, none, none⟩)], [], [], []⟩
    (by decide) (by decide) (by decide) rfl (by decide) rfl rfl
    (by decide) (by decide)

/-- C6 (counterexample): the claim fails as stated. On a code with no
stored mapping ("zzz" in the empty store) the update handler answers 200
— not Not Found — and creates a mapping for the previously unknown
code. -/
theorem C6_counterexample :
    (putApiUrls "zzz" "https://example.com" emptyState).1 = 200 ∧
    kvGet (putApiUrls "zzz" "https://example.com" emptyState).2.urlMappings
        "zzz" = some ⟨"https://example.com", none, none, none, none⟩ := by
  decide

/-- C6 (amended): update never answers Not Found: for every code — known
or unknown — it answers 200 and upserts a record holding only the new
target, resetting the expiration and preview fields to absent. -/
theorem C6_update_upserts (code url : String) (st : AppState) :
    (putApiUrls code url st).1 = 200 ∧
    kvGet (putApiUrls code url st).2.urlMappings code =
      some ⟨url, none, none, none, none⟩ ∧
    (putApiUrls code url st).2.urlMappings =
      kvPut st.urlMappings code ⟨url, none, none, none, none⟩ :=
  ⟨rfl, kvGet_put_same _ _ _, rfl⟩

/-- C7: in the custom-domain variant of the resolver, a non-bot request
for an unmapped code redirects to the CUSTOM_DOMAINS target of the
(truthy) inbound host header when one is registered, and answers Not
Found exactly otherwise. -/
theorem C7_custom_domain_fallback (code ua : String) (host : Option String)
    (now : Nat) (domains : List (String × String)) (st : AppState)
    (hbot : isBotAgent ua = false)
    (hmiss : kvGet st.urlMappings code = none) :
    (∀ h t, host = some h → h ≠ "" → kvGet domains h = some t →
      (getShortCodeWithDomains code ua host now domains st).1 =
        .redirect t) ∧
    ((∀ h, host = some h → h ≠ "" → kvGet domains h = none) →
      (getShortCodeWithDomains code ua host now domains st).1 =
        .notFound) := by
  constructor
  · intro h t hh hne hdom
    subst hh
    simp [getShortCodeWithDomains, hbot, hmiss, hne, hdom]
  · intro hall
    cases host with
    | none => simp [getShortCodeWithDomains, hbot, hmiss]
    | some h =>
      by_cases hne : h = ""
      · subst hne
        simp [getShortCodeWithDomains, hbot, hmiss]
      · have hdom := hall h rfl hne
        simp [getShortCodeWithDomains, hbot, hmiss, hne, hdom]

/-- C7 witness: an unknown code with a registered host redirects to the
domain target; with no registered host it answers Not Found. -/
theorem C7_witness :
    (getShortCodeWithDomains "xx" "Mozilla/5.0" (some "short.example") 0
        [("short.example", "https://t.example")] emptyState).1 =
      .redirect "https://t.example" ∧
    (getShortCodeWithDomains "xx" "Mozilla/5.0" (some "other.example") 0
        [] emptyState).1 = .notFound := by
  constructor
  · exact (C7_custom_domain_fallback "xx" "Mozilla/5.0"
      (some "short.example") 0 [("short.example", "https://t.example")]
      emptyState (by decide) (by decide)).1 "short.example"
      "https://t.example" rfl (by decide) (by decide)
  · exact (C7_custom_domain_fallback "xx" "Mozilla/5.0"
      (some "other.example") 0 [] emptyState (by decide) (by decide)).2
      (by intro h hh hne; rfl)

/-- C8 (counterexample): the claim fails as stated. A creation request
with a malformed URL, sent through the /api/urls pipeline with a valid
key and a fresh window, is rejected with a validation error — yet the
client's rate-limit counter was read and written (incremented to 1) by
the rejected request, because the rate limiter middleware runs before
zValidator. -/
theorem C8_counterexample :
    (apiCreatePipeline (some "k1") "9.9.9.9"
        ⟨"not a url", none, none, none, none, none⟩ (.failure "")
        "gggggggg" 0 "sho.rt" ⟨[], [], [("k1", "true")], []⟩).1 =
      .validationError ∧
    kvGet (apiCreatePipeline (some "k1") "9.9.9.9"
        ⟨"not a url", none, none, none, none, none⟩ (.failure "")
        "gggggggg" 0 "sho.rt"
        ⟨[], [], [("k1", "true")], []⟩).2.urlAnalytics
      (rateLimitKey "9.9.9.9") = some 1 := by
  decide

/-- C8 (amended): a creation request failing validation (malformed URL,
malformed custom code, or out-of-range expiration) is rejected with 400
before the handler body runs: no mapping is read or written and the
metadata cache is untouched — but the request first passes the auth
middleware (an API-key read) and the rate limiter, which increments the
client's counter. -/
theorem C8_validation_after_rate_limit (tok key ip g host : String)
    (b : CreateBody) (o : FetchOutcome) (n : Nat) (st : AppState)
    (htok : tok ≠ "") (hkey : kvGet st.apiKeys tok = some key)
    (hcnt : (kvGet st.urlAnalytics (rateLimitKey ip)).getD 0 <
      rateLimitCeiling)
    (hbad : createBodyValid b = false) :
    (apiCreatePipeline (some tok) ip b o g n host st).1 =
      .validationError ∧
    ApiResponse.status .validationError = 400 ∧
    (apiCreatePipeline (some tok) ip b o g n host st).2.urlMappings =
      st.urlMappings ∧
    (apiCreatePipeline (some tok) ip b o g n host st).2.ogMetadataCache =
      st.ogMetadataCache ∧
    kvGet (apiCreatePipeline (some tok) ip b o g n host st).2.urlAnalytics
        (rateLimitKey ip) =
      some ((kvGet st.urlAnalytics (rateLimitKey ip)).getD 0 + 1) := by
  have hallow := rateLimiter_allowed hcnt
  have hpipe := apiCreatePipeline_validation htok hkey hallow hbad o g n host
  have h2 : (rateLimiter ip st).2.urlAnalytics =
      kvPut st.urlAnalytics (rateLimitKey ip)
        ((kvGet st.urlAnalytics (rateLimitKey ip)).getD 0 + 1) := by
    simp [rateLimiter, Nat.not_le_of_lt hcnt]
  refine ⟨by rw [hpipe], rfl, ?_, ?_, ?_⟩
  · rw [hpipe]; exact rateLimiter_urlMappings ip st
  · rw [hpipe]; exact rateLimiter_ogCache ip st
  · rw [hpipe]
    show kvGet (rateLimiter ip st).2.urlAnalytics (rateLimitKey ip) = _
    rw [h2]
    exact kvGet_put_same _ _ _

/-- C8 witness: with the counter at 3, a malformed-URL request is
rejected 400 and the counter becomes 4. -/
theorem C8_witness :
    (apiCreatePipeline (some "k1") "9.9.9.9"
        ⟨"not a url", none, none, none, none, none⟩ (.failure "")
        "gggggggg" 0 "sho.rt"
        ⟨[], [(rateLimitKey "9.9.9.9", 3)], [("k1", "true")], []⟩).1 =
      .validationError ∧
    ApiResponse.status .validationError = 400 ∧
    (apiCreatePipeline (some "k1") "9.9.9.9"
        ⟨"not a url", none, none, none, none, none⟩ (.failure "")
        "gggggggg" 0 "sho.rt"
        ⟨[], [(rateLimitKey "9.9.9.9", 3)], [("k1", "true")],
         []⟩).2.urlMappings =
      AppState.urlMappings
        ⟨[], [(rateLimitKey "9.9.9.9", 3)], [("k1", "true")], []⟩ ∧
    (apiCreatePipeline (some "k1") "9.9.9.9"
        ⟨"not a url", none, none, none, none, none⟩ (.failure "")
        "gggggggg" 0 "sho.rt"
        ⟨[], [(rateLimitKey "9.9.9.9", 3)], [("k1", "true")],
         []⟩).2.ogMetadataCache =
      AppState.ogMetadataCache
        ⟨[], [(rateLimitKey "9.9.9.9", 3)], [("k1", "true")], []⟩ ∧
    kvGet (apiCreatePipeline (some "k1") "9.9.9.9"
        ⟨"not a url", none, none, none, none, none⟩ (.failure "")
        "gggggggg" 0 "sho.rt"
        ⟨[], [(rateLimitKey "9.9.9.9", 3)], [("k1", "true")],
         []⟩).2.urlAnalytics (rateLimitKey "9.9.9.9") = some 4 :=
  C8_validation_after_rate_limit "k1" "true" "9.9.9.9" "gggggggg" "sho.rt"
    ⟨"not a url", none, none, none, none, none⟩ (.failure "") 0
    ⟨[], [(rateLimitKey "9.9.9.9", 3)], [("k1", "true")], []⟩
    (by decide) (by decide) (by decide) (by decide)

/-- C9 (counterexample): the claim fails as stated. On a cache miss with
a *successful* fetch whose document has no og:title / og:description tags
(but a `<title>` of "Example Title"), the resolver returns an empty title
— neither the extracted title text nor "Untitled" — and an empty
description rather than the placeholder sentence: the per-field fallback
is not applied to fields that are merely missing. -/
theorem C9_counterexample :
    (fetchOpenGraphMetadata "https://example.com"
        (.success "" "" "" "Example Title") []).1.ogTitle = "" ∧
    (fetchOpenGraphMetadata "https://example.com"
        (.success "" "" "" "Example Title") []).1.ogDescription = "" ∧
    "" ≠ "Untitled" ∧ "" ≠ "Example Title" ∧
    "" ≠ "No description available" := by
  decide

/-- C9 (amended): on a cache miss the joint fallback applies only when
the fetch fails — then the title is the accumulated title text or
"Untitled", the description the placeholder sentence and the image the
placeholder URL; on a successful fetch the extracted values are kept
as-is (missing tags give empty strings). Independently of the source, an
image that does not parse as a URL is replaced by the placeholder, so the
resolved image is always syntactically valid; the result is always
produced (and cached) rather than propagating the failure. -/
theorem C9_fallback (url : String) (o : FetchOutcome)
    (cache : List (String × OgMeta))
    (hmiss : kvGet cache (ogMetadataKey url) = none) :
    jsUrlValid (fetchOpenGraphMetadata url o cache).1.ogImage = true ∧
    (∀ tt, o = .failure tt →
      (fetchOpenGraphMetadata url o cache).1 =
        ⟨if tt = "" then "Untitled" else tt, "No description available",
         placeholderImage⟩) ∧
    (∀ t d i x, o = .success t d i x →
      (fetchOpenGraphMetadata url o cache).1 =
        ⟨t, d, if jsUrlValid i then i else placeholderImage⟩) ∧
    (fetchOpenGraphMetadata url o cache).2 =
      kvPut cache (ogMetadataKey url)
        (fetchOpenGraphMetadata url o cache).1 := by
  have hph : jsUrlValid placeholderImage = true := by decide
  refine ⟨?_, ?_, ?_, ?_⟩
  · cases o with
    | failure tt => simp [fetchOpenGraphMetadata, hmiss, hph]
    | success t d i x =>
      by_cases hv : jsUrlValid i = true
      · simp [fetchOpenGraphMetadata, hmiss, hv]
      · simp [fetchOpenGraphMetadata, hmiss, hv, hph]
  · intro tt ho
    subst ho
    simp [fetchOpenGraphMetadata, hmiss, hph]
  · intro t d i x ho
    subst ho
    simp [fetchOpenGraphMetadata, hmiss]
  · simp [fetchOpenGraphMetadata, hmiss]

/-- C9 witness: an unreachable target yields the full fallback triple
with a syntactically valid placeholder image. -/
theorem C9_witness :
    jsUrlValid (fetchOpenGraphMetadata "https://example.com" (.failure "")
        []).1.ogImage = true ∧
    (fetchOpenGraphMetadata "https://example.com" (.failure "") []).1 =
      ⟨"Untitled", "No description available", placeholderImage⟩ := by
  have h := C9_fallback "https://example.com" (.failure "") [] (by decide)
  exact ⟨h.1, h.2.1 "" rfl⟩

/-- C10: when some stored record already maps to the requested URL, a
creation request answers 200 with the existing code and writes no record,
whatever custom code it supplies — the dedup check takes precedence and
the custom code is ignored. -/
theorem C10_dedup_over_custom (u host g : String) (b : CreateBody)
    (o : FetchOutcome) (n : Nat) (st : AppState)
    (hbu : b.url = u)
    (hmap : ∃ k r, kvGet st.urlMappings k = some r ∧ r.url = u) :
    ∃ c r, kvGet st.urlMappings c = some r ∧ r.url = u ∧
      (postApiUrls b o g n host st).1 =
        .createOk 200 ("https://" ++ host ++ "/" ++ c) u ∧
      (postApiUrls b o g n host st).2.urlMappings = st.urlMappings := by
  obtain ⟨k, r, hk, hr⟩ := hmap
  have hsome : (findExistingShortCode st.urlMappings u).isSome :=
    findExistingShortCode_isSome hk hr
  obtain ⟨c, hc⟩ := Option.isSome_iff_exists.mp hsome
  obtain ⟨r', hget', hu'⟩ := findExistingShortCode_sound hc
  have hcb : findExistingShortCode st.urlMappings b.url = some c := by
    rw [hbu]; exact hc
  exact ⟨c, r', hget', hu',
    by rw [postApiUrls_dedup_fst hcb o g n host, hbu],
    postApiUrls_dedup_mappings hcb o g n host⟩

/-- C10 witness: the requested URL is already stored under "abcd" while
the supplied custom code "zzz" is taken by a different URL — the call
still answers 200 with an existing code for the URL and writes nothing. -/
theorem C10_witness :
    ∃ c r,
      kvGet (AppState.urlMappings
        ⟨[("abcd", ⟨"https://u.example", none, none, none, none⟩),
          ("zzz", ⟨"https://w.example", none, none, none, none⟩)],
         [], [], []⟩) c = some r ∧
      r.url = "https://u.example" ∧
      (postApiUrls ⟨"https://u.example", some "zzz", none, none, none, none⟩
          (.failure "") "gggggggg" 0 "sho.rt"
          ⟨[("abcd", ⟨"https://u.example", none, none, none, none⟩),
            ("zzz", ⟨"https://w.example", none, none, none, none⟩)],
           [], [], []⟩).1 =
        .createOk 200 ("https://" ++ "sho.rt" ++ "/" ++ c)
          "https://u.example" ∧
      (postApiUrls ⟨"https://u.example", some "zzz", none, none, none, none⟩
          (.failure "") "gggggggg" 0 "sho.rt"
          ⟨[("abcd", ⟨"https://u.example", none, none, none, none⟩),
            ("zzz", ⟨"https://w.example", none, none, none, none⟩)],
           [], [], []⟩).2.urlMappings =
        AppState.urlMappings
          ⟨[("abcd", ⟨"https://u.example", none, none, none, none⟩),
            ("zzz", ⟨"https://w.example", none, none, none, none⟩)],
           [], [], []⟩ :=
  C10_dedup_over_custom "https://u.example" "sho.rt" "gggggggg"
    ⟨"https://u.example", some "zzz", none, none, none, none⟩ (.failure "")
    0
    ⟨[("abcd", ⟨"https://u.example", none, none, none, none⟩),
      ("zzz", ⟨"https://w.example", none, none, none, none⟩)], [], [], []⟩
    rfl ⟨"abcd", ⟨"https://u.example", none, none, none, none⟩,
      by decide, rfl⟩

end UrlShortener
